import Mathlib

/-
Shallow embedding of src/fuse.py (osm_yelp_fuse).

Floats are modelled as exact rationals (ℚ).  External collaborators (the yelp
HTTP client's _make_request, the overpass API's Get, Flask's request parsing)
are modelled as explicit function parameters or small concrete models; the
logic of fuse.py itself (bounding-box arithmetic, parameter assembly, call
sequencing, error propagation) is translated line by line.
-/

/-- A URL parameter value as it appears in the yelp url_params dict:
either a string or a numeric (float) value. -/
inductive PVal
  | s (v : String)
  | n (v : ℚ)
  deriving DecidableEq, Repr

/-- Dictionary lookup on an association list (Python `d[k]` read / `k in d`). -/
def lookupKey (ps : List (String × PVal)) (k : String) : Option PVal :=
  (ps.find? (fun p => p.1 == k)).map Prod.snd

/-- Python dict assignment `d[k] = v`: overwrite in place when the key exists,
otherwise append (insertion order preserved, as in Python 3 dicts). -/
def setKey (ps : List (String × PVal)) (k : String) (v : PVal) : List (String × PVal) :=
  if ps.any (fun p => p.1 == k) then
    ps.map (fun p => if p.1 == k then (k, v) else p)
  else
    ps ++ [(k, v)]

/-- SEARCH_PATH imported from yelp.config (external library constant,
fuse.py line 19). -/
def SEARCH_PATH : String := "/v2/search/"

namespace CustomClient

/-- The request handed to the external `_make_request` by
my_search_by_bounding_box (fuse.py line 59): the endpoint path and the
url parameters. -/
structure Request where
  path : String
  url_params : List (String × PVal)
  deriving DecidableEq

/-- CustomClient._format_bounds (fuse.py lines 61-73):
`'{0},{1}|{2},{3}'.format(sw_latitude, sw_longitude, ne_latitude, ne_longitude)`.
`fmt` models Python's float-to-string conversion used by str.format. -/
def _format_bounds (fmt : ℚ → String) (sw_latitude sw_longitude ne_latitude ne_longitude : ℚ) :
    String :=
  fmt sw_latitude ++ "," ++ fmt sw_longitude ++ "|" ++ fmt ne_latitude ++ "," ++ fmt ne_longitude

/-- CustomClient.my_search_by_bounding_box (fuse.py lines 28-59):
sets `url_params['bounds'] = self._format_bounds(...)` and issues
`self._make_request(SEARCH_PATH, url_params)`; we return the request made. -/
def my_search_by_bounding_box (fmt : ℚ → String)
    (sw_latitude sw_longitude ne_latitude ne_longitude : ℚ)
    (url_params : List (String × PVal)) : Request :=
  ⟨SEARCH_PATH,
   setKey url_params "bounds"
     (PVal.s (_format_bounds fmt sw_latitude sw_longitude ne_latitude ne_longitude))⟩

end CustomClient

/-- overpass.MapQuery (external library): the four positional arguments passed
at fuse.py line 112, i.e. the bounding box handed to the OSM provider. -/
structure MapQuery where
  south : ℚ
  west : ℚ
  north : ℚ
  east : ℚ
  deriving DecidableEq, Repr

/-- The two upstream providers, used to record which external services a
request contacts and in which order. -/
inductive Provider
  | osm
  | yelp
  deriving DecidableEq, Repr

/-- The external network collaborators: the overpass `api.Get` call and the
yelp client's `_make_request`, each a blocking fallible call. -/
structure Adapters (E J : Type) where
  osmGet : MapQuery → Except E J
  yelpSend : CustomClient.Request → Except E J

namespace FuseResult

/-- FuseResult.EARTH_RADIUS (fuse.py line 84), in meters. -/
def EARTH_RADIUS : ℚ := 63710000

/-- math.pi: the exact value of the IEEE-754 binary64 constant used by
Python's math module. -/
def math_pi : ℚ := 884279719003555 / 281474976710656

/-- FuseResult.calculate_search_radius (fuse.py lines 91-93):
`2 * math.pi / 180 * d * cls.EARTH_RADIUS`. -/
def calculate_search_radius (d : ℚ) : ℚ :=
  2 * math_pi / 180 * d * EARTH_RADIUS

/-- The four positional bounding-box arguments passed to
my_search_by_bounding_box inside get_yelp_result (fuse.py lines 101-104):
(center[0] - r, center[1] - r, center[0] + r, center[1] + r). -/
def yelp_box_args (center : ℚ × ℚ) (search_radius_in_degree : ℚ) : ℚ × ℚ × ℚ × ℚ :=
  (center.1 - search_radius_in_degree, center.2 - search_radius_in_degree,
   center.1 + search_radius_in_degree, center.2 + search_radius_in_degree)

/-- The four positional arguments passed to overpass.MapQuery inside
get_osm_result (fuse.py line 112):
(center[0] - radius, center[1] - radius, center[0] + radius, center[1] + radius). -/
def osm_box_args (center : ℚ × ℚ) (radius : ℚ) : ℚ × ℚ × ℚ × ℚ :=
  (center.1 - radius, center.2 - radius, center.1 + radius, center.2 + radius)

/-- FuseResult.get_yelp_result (fuse.py lines 95-107): builds the params dict
`{'term': 'food', 'latittude': center[0], 'longitude': center[1]}` and calls
client.my_search_by_bounding_box with the four corner coordinates; we return
the yelp request this produces. -/
def get_yelp_result (fmt : ℚ → String) (center : ℚ × ℚ) (search_radius_in_degree : ℚ) :
    CustomClient.Request :=
  let params : List (String × PVal) :=
    [("term", PVal.s "food"),
     ("latittude", PVal.n center.1),
     ("longitude", PVal.n center.2)]
  CustomClient.my_search_by_bounding_box fmt
    (yelp_box_args center search_radius_in_degree).1
    (yelp_box_args center search_radius_in_degree).2.1
    (yelp_box_args center search_radius_in_degree).2.2.1
    (yelp_box_args center search_radius_in_degree).2.2.2
    params

/-- FuseResult.get_osm_result (fuse.py lines 109-113): builds
overpass.MapQuery(center[0] - radius, center[1] - radius, center[0] + radius,
center[1] + radius) and performs api.Get on it. -/
def get_osm_result {E J : Type} (api : Adapters E J) (center : ℚ × ℚ) (radius : ℚ) :
    Except E J :=
  api.osmGet
    ⟨(osm_box_args center radius).1, (osm_box_args center radius).2.1,
     (osm_box_args center radius).2.2.1, (osm_box_args center radius).2.2.2⟩

/-- FuseResult.fused_json (fuse.py lines 115-121): `radius = degree / 2`;
call get_osm_result, then get_yelp_result, then dump
`{'yelp': yelp_result, 'osm': osm_result}`.  Python exceptions from either
provider short-circuit (they are not caught anywhere in fuse.py), which the
Except match models; the first component records which providers were
contacted, in order.  The JSON document is the association list given to
json.dumps. -/
def fused_json {E J : Type} (A : Adapters E J) (fmt : ℚ → String)
    (search_center : ℚ × ℚ) (degree : ℚ) :
    List Provider × Except E (List (String × J)) :=
  let radius := degree / 2
  match get_osm_result A search_center radius with
  | Except.error e => ([Provider.osm], Except.error e)
  | Except.ok osm_result =>
    match A.yelpSend (get_yelp_result fmt search_center radius) with
    | Except.error e => ([Provider.osm, Provider.yelp], Except.error e)
    | Except.ok yelp_result =>
      ([Provider.osm, Provider.yelp],
       Except.ok [("yelp", yelp_result), ("osm", osm_result)])

end FuseResult

/-- A bounding box as two corners, south-west and north-east (spec data
model); the corners the code computes are those of osm_box_args applied, as
fused_json does, with radius = degree / 2. -/
structure BoundingBox where
  sw : ℚ × ℚ
  ne : ℚ × ℚ
  deriving DecidableEq, Repr

/-- The bounding box computed by fused_json for a given center and size
(fuse.py lines 115-118 together with line 112). -/
def fused_bounding_box (center : ℚ × ℚ) (degree : ℚ) : BoundingBox :=
  let radius := degree / 2
  ⟨((FuseResult.osm_box_args center radius).1, (FuseResult.osm_box_args center radius).2.1),
   ((FuseResult.osm_box_args center radius).2.2.1, (FuseResult.osm_box_args center radius).2.2.2)⟩

/-- Exceptions raised by Python's float builtin: float(None) raises TypeError,
float of a non-numeric string raises ValueError. -/
inductive PyErr
  | typeError
  | valueError
  deriving DecidableEq, Repr

/-- Value of a list of decimal digit characters. -/
def digitsVal (cs : List Char) : Nat :=
  cs.foldl (fun n c => 10 * n + (c.toNat - 48)) 0

/-- Model of Python's float() on a decimal string: optional sign, digits,
optional fractional part.  Returns none when the string is non-numeric. -/
def parseDecimal (str : String) : Option ℚ :=
  let cs := str.toList
  let signAndRest : ℚ × List Char :=
    match cs with
    | '-' :: t => (-1, t)
    | '+' :: t => (1, t)
    | t => (1, t)
  let sign := signAndRest.1
  let rest := signAndRest.2
  let intPart := rest.takeWhile Char.isDigit
  let rest2 := rest.dropWhile Char.isDigit
  match rest2 with
  | [] => if intPart.isEmpty then none else some (sign * (digitsVal intPart : ℚ))
  | '.' :: frac =>
    if frac.all Char.isDigit && !(intPart.isEmpty && frac.isEmpty) then
      some (sign * ((digitsVal intPart : ℚ) + (digitsVal frac : ℚ) / (10 ^ frac.length)))
    else none
  | _ => none

/-- Python's `float(request.args.get(k))` as used at fuse.py lines 129-131:
args.get returns None when the parameter is missing, and float(None) raises
TypeError; float of a non-numeric string raises ValueError. -/
def pyFloat : Option String → Except PyErr ℚ
  | none => Except.error PyErr.typeError
  | some str =>
    match parseDecimal str with
    | some q => Except.ok q
    | none => Except.error PyErr.valueError

/-- hello_world (fuse.py lines 127-132): parse lat, lon, size from the query
string in that order, then return FuseResult.fused_json((lat, lon), degree).
A parse exception propagates uncaught (Sum.inl), before any provider is
contacted; provider exceptions propagate uncaught as Sum.inr. -/
def hello_world {E J : Type} (A : Adapters E J) (fmt : ℚ → String)
    (args : String → Option String) :
    List Provider × Except (PyErr ⊕ E) (List (String × J)) :=
  match pyFloat (args "lat") with
  | Except.error pe => ([], Except.error (Sum.inl pe))
  | Except.ok lat =>
    match pyFloat (args "lon") with
    | Except.error pe => ([], Except.error (Sum.inl pe))
    | Except.ok lon =>
      match pyFloat (args "size") with
      | Except.error pe => ([], Except.error (Sum.inl pe))
      | Except.ok degree =>
        let r := FuseResult.fused_json A fmt (lat, lon) degree
        (r.1, r.2.mapError Sum.inr)

/-- A trivial float-to-string conversion, standing in for Python's repr in
concrete instances (the claims never depend on its output). -/
def fmt0 : ℚ → String := fun _ => "num"

/-- Concrete adapters in which both providers succeed. -/
def okAdapters : Adapters String String :=
  ⟨fun _ => Except.ok "osm payload", fun _ => Except.ok "yelp payload"⟩

/-- Concrete adapters in which the OSM provider raises and yelp would
succeed. -/
def osmFailAdapters : Adapters String String :=
  ⟨fun _ => Except.error "boom", fun _ => Except.ok "yelp payload"⟩

/-- Concrete adapters in which yelp raises and the OSM provider succeeds. -/
def yelpFailAdapters : Adapters String String :=
  ⟨fun _ => Except.ok "osm payload", fun _ => Except.error "boom"⟩

/-- Query-string table for `GET /?lon=-122.396559&size=0.005` (lat missing). -/
def argsMissingLat : String → Option String := fun k =>
  if k == "lon" then some "-122.396559"
  else if k == "size" then some "0.005" else none

/-- Claim C1: for every call to fused_json with a given center and size, the
bounding box passed to the business-search adapter (via get_yelp_result) is
value-for-value identical to the bounding box passed to the map-feature
adapter (via get_osm_result): with radius = size / 2 as computed by
fused_json, both receive the corners (center.lat - size/2, center.lon - size/2)
and (center.lat + size/2, center.lon + size/2). -/
theorem C1_same_box_for_both_adapters (center : ℚ × ℚ) (degree : ℚ) :
    FuseResult.yelp_box_args center (degree / 2) =
      FuseResult.osm_box_args center (degree / 2) ∧
    FuseResult.osm_box_args center (degree / 2) =
      (center.1 - degree / 2, center.2 - degree / 2,
       center.1 + degree / 2, center.2 + degree / 2) :=
  ⟨rfl, rfl⟩

/-- Claim C2: for every center (lat, lon) and size, the computed bounding box
is south-west = (lat - size/2, lon - size/2), north-east =
(lat + size/2, lon + size/2); in particular for center
(37.786660, -122.396559) and size 0.005 the box is
south-west = (37.784160, -122.399059), north-east = (37.789160, -122.394059). -/
theorem C2_bounding_box_values :
    (∀ lat lon size : ℚ, fused_bounding_box (lat, lon) size =
      ⟨(lat - size / 2, lon - size / 2), (lat + size / 2, lon + size / 2)⟩) ∧
    fused_bounding_box (37.786660, -122.396559) 0.005 =
      ⟨(37.784160, -122.399059), (37.789160, -122.394059)⟩ := by
  constructor
  · intro lat lon size
    rfl
  · show BoundingBox.mk _ _ = _
    norm_num [fused_bounding_box, FuseResult.osm_box_args, BoundingBox.mk.injEq, Prod.ext_iff]

/-- Claim C3 (code behavior at the failing input): for the request
`GET /?lon=-122.396559&size=0.005` with `lat` missing, hello_world makes no
upstream provider call, but instead of returning a 400 client-error response
it raises an uncaught TypeError from `float(None)` (which Flask surfaces as a
500 Internal Server Error). -/
theorem C3_missing_lat_uncaught_typeerror :
    hello_world okAdapters fmt0 argsMissingLat =
      ([], Except.error (Sum.inl PyErr.typeError)) := rfl

/-- Claim C4 (code behavior at the failing input): an upstream failure
propagates out of fused_json as the raw, untagged exception value: the OSM
provider failing with "boom" and the yelp provider failing with "boom"
produce byte-identical outcomes, so the error is not provider-tagged. -/
theorem C4_error_not_provider_tagged :
    (FuseResult.fused_json osmFailAdapters fmt0 (37.786660, -122.396559) 0.005).2 =
      Except.error "boom" ∧
    (FuseResult.fused_json yelpFailAdapters fmt0 (37.786660, -122.396559) 0.005).2 =
      Except.error "boom" ∧
    (FuseResult.fused_json osmFailAdapters fmt0 (37.786660, -122.396559) 0.005).2 =
      (FuseResult.fused_json yelpFailAdapters fmt0 (37.786660, -122.396559) 0.005).2 :=
  ⟨rfl, rfl, rfl⟩

/-- Claim C5: on full success the document returned by fused_json (the dict
handed to json.dumps, i.e. the body's JSON object) has exactly the two
top-level keys "yelp" and "osm", holding the yelp and osm payloads unmodified. -/
theorem C5_success_body_two_keys {E J : Type} (A : Adapters E J) (fmt : ℚ → String)
    (center : ℚ × ℚ) (degree : ℚ) (o y : J)
    (hosm : FuseResult.get_osm_result A center (degree / 2) = Except.ok o)
    (hyelp : A.yelpSend (FuseResult.get_yelp_result fmt center (degree / 2)) = Except.ok y) :
    FuseResult.fused_json A fmt center degree =
      ([Provider.osm, Provider.yelp], Except.ok [("yelp", y), ("osm", o)]) ∧
    ([("yelp", y), ("osm", o)] : List (String × J)).map Prod.fst = ["yelp", "osm"] := by
  refine ⟨?_, rfl⟩
  simp only [FuseResult.fused_json, hosm, hyelp]

/-- Witness for C5 at concrete adapters where both providers succeed. -/
theorem C5_success_body_two_keys_witness :
    FuseResult.fused_json okAdapters fmt0 (0, 0) 1 =
      ([Provider.osm, Provider.yelp],
       Except.ok [("yelp", "yelp payload"), ("osm", "osm payload")]) ∧
    ([("yelp", "yelp payload"), ("osm", "osm payload")] : List (String × String)).map Prod.fst =
      ["yelp", "osm"] :=
  C5_success_body_two_keys okAdapters fmt0 (0, 0) 1 "osm payload" "yelp payload" rfl rfl

/-- Claim C6: for every center point and every size ≥ 0, the computed bounding
box satisfies south-west.latitude ≤ north-east.latitude and
south-west.longitude ≤ north-east.longitude. -/
theorem C6_box_sw_le_ne (center : ℚ × ℚ) (size : ℚ) (h : 0 ≤ size) :
    (fused_bounding_box center size).sw.1 ≤ (fused_bounding_box center size).ne.1 ∧
    (fused_bounding_box center size).sw.2 ≤ (fused_bounding_box center size).ne.2 := by
  simp only [fused_bounding_box, FuseResult.osm_box_args]
  constructor <;> linarith

/-- Witness for C6 at center (0, 0) and size 1. -/
theorem C6_box_sw_le_ne_witness :
    (fused_bounding_box (0, 0) 1).sw.1 ≤ (fused_bounding_box (0, 0) 1).ne.1 ∧
    (fused_bounding_box (0, 0) 1).sw.2 ≤ (fused_bounding_box (0, 0) 1).ne.2 :=
  C6_box_sw_le_ne (0, 0) 1 (by norm_num)

/-- Claim C7: for every fusion request, the yelp search's URL parameters
include the fixed term 'food', the misspelled key 'latittude' holding the
center's latitude, and 'longitude' holding the center's longitude. -/
theorem C7_yelp_params_term_and_misspelled_latitude (fmt : ℚ → String)
    (center : ℚ × ℚ) (r : ℚ) :
    lookupKey (FuseResult.get_yelp_result fmt center r).url_params "term" =
      some (PVal.s "food") ∧
    lookupKey (FuseResult.get_yelp_result fmt center r).url_params "latittude" =
      some (PVal.n center.1) ∧
    lookupKey (FuseResult.get_yelp_result fmt center r).url_params "longitude" =
      some (PVal.n center.2) :=
  ⟨rfl, rfl, rfl⟩

/-- Claim C8: calculate_search_radius maps 0 to 0 and scales linearly:
calculate_search_radius (c * d) = c * calculate_search_radius d. -/
theorem C8_radius_zero_and_linear :
    FuseResult.calculate_search_radius 0 = 0 ∧
    ∀ c d : ℚ, FuseResult.calculate_search_radius (c * d) =
      c * FuseResult.calculate_search_radius d := by
  constructor
  · simp [FuseResult.calculate_search_radius]
  · intro c d
    simp only [FuseResult.calculate_search_radius]
    ring

/-- Claim C9: every yelp request carries the bounding box in the single URL
parameter 'bounds', serialized as 'sw_lat,sw_lon|ne_lat,ne_lon' (corners
comma-separated, joined by '|', south-west first); the full parameter list
is term, latittude, longitude, bounds, with 'bounds' occurring exactly once. -/
theorem C9_bounds_serialization (fmt : ℚ → String) (center : ℚ × ℚ) (r : ℚ) :
    (FuseResult.get_yelp_result fmt center r).url_params =
      [("term", PVal.s "food"),
       ("latittude", PVal.n center.1),
       ("longitude", PVal.n center.2),
       ("bounds", PVal.s (fmt (center.1 - r) ++ "," ++ fmt (center.2 - r) ++ "|" ++
                          fmt (center.1 + r) ++ "," ++ fmt (center.2 + r)))] ∧
    ((FuseResult.get_yelp_result fmt center r).url_params.filter
      (fun p => p.1 == "bounds")).length = 1 :=
  ⟨rfl, rfl⟩

/-- Claim C10: fused_json queries the OSM provider strictly before the yelp
provider: if the OSM call raises an error e, fused_json propagates e and its
call trace is [osm] alone, so the yelp provider is never contacted. -/
theorem C10_osm_queried_before_yelp {E J : Type} (A : Adapters E J) (fmt : ℚ → String)
    (center : ℚ × ℚ) (degree : ℚ) (e : E)
    (hosm : FuseResult.get_osm_result A center (degree / 2) = Except.error e) :
    FuseResult.fused_json A fmt center degree = ([Provider.osm], Except.error e) ∧
    Provider.yelp ∉ (FuseResult.fused_json A fmt center degree).1 := by
  have h1 : FuseResult.fused_json A fmt center degree = ([Provider.osm], Except.error e) := by
    simp only [FuseResult.fused_json, hosm]
  refine ⟨h1, ?_⟩
  rw [h1]
  simp

/-- Witness for C10 at concrete adapters where the OSM provider fails. -/
theorem C10_osm_queried_before_yelp_witness :
    FuseResult.fused_json osmFailAdapters fmt0 (0, 0) 1 =
      ([Provider.osm], Except.error "boom") ∧
    Provider.yelp ∉ (FuseResult.fused_json osmFailAdapters fmt0 (0, 0) 1).1 :=
  C10_osm_queried_before_yelp osmFailAdapters fmt0 (0, 0) 1 "boom" rfl
